import Mathlib

/-!
Shallow embedding of the tts-api backend (index.js, firebase.js, tts.js).

The three source files are glue over external services.  The embedding
models JavaScript strings as Lean `String`s, byte buffers as `String`s
holding the byte content, and each external call (PDF parsing, speech
synthesis, blob-store writes, record-store writes) as an oracle carried
in an environment record, returning `Except` to model promise
rejection.  JS truthiness of a string is `s ≠ ""`; an absent request
field is `Option.none`.
-/

/-- HTTP JSON response as produced by the handlers in index.js: the
status code plus the optional fields the various `res.json` calls set. -/
structure HttpResponse where
  status : Nat
  success : Bool := false
  error : Option String := none
  message : Option String := none
  conversionId : Option String := none
  audioUrl : Option String := none
  textLength : Option Nat := none
  inputType : Option String := none
  deletedConversionId : Option String := none
deriving DecidableEq

/-- Conversion record persisted by `saveConversion` (index.js lines
132-143 build it, firebase.js `saveConversion` adds the generated id). -/
structure ConversionRecord where
  id : String
  text : String
  inputType : String
  originalFileName : Option String
  originalFileUrl : Option String
  audioUrl : String
  status : String
  textLength : Nat
deriving DecidableEq

/-- An uploaded multipart file as multer presents it (`req.file`). -/
structure FileUpload where
  originalname : String
  mimetype : String
  buffer : String
  size : Nat
deriving DecidableEq

/-- A POST /convert request: `userId` ("" models a missing/falsy value,
matching the `!userId` check), the optional `text` form field and the
optional uploaded file. -/
structure ConvertReq where
  userId : String
  text : Option String
  file : Option FileUpload
deriving DecidableEq

/-- Environment of external collaborators for one /convert request:
oracles for pdf-parse, the speech synthesis call, the blob-store
save+makePublic pair, and the Firestore record write; plus the
generated document id and the inputs of `generateFileName`
(`Date.now()` timestamp and the two `Math.random()` suffixes). -/
structure ConvertEnv where
  pdfParse : String → Except String String
  synthesize : String → Except String String
  blobSave : String → String → String → Except String Unit
  recordSave : Except String Unit
  genId : String
  timestamp : Nat
  randOriginal : String
  randAudio : String

/-- All external calls of the conversion workflow succeed. -/
def EnvOk (env : ConvertEnv) : Prop :=
  (∀ s, ∃ b, env.synthesize s = Except.ok b) ∧
  (∀ n b c, env.blobSave n b c = Except.ok ()) ∧
  env.recordSave = Except.ok ()

/-- The fixed storage bucket configured in firebase.js line 9. -/
def bucketName : String := "bustling-bot-464601-a9.firebasestorage.app"

/-- The public URL built by firebase.js `uploadFile` line 78. -/
def publicUrl (fileName : String) : String :=
  "https://storage.googleapis.com/" ++ bucketName ++ "/" ++ fileName

/-- firebase.js `uploadFile`: save the buffer, make it public, return
the deterministic public URL; a failing blob-store call rejects. -/
def uploadFile (env : ConvertEnv) (fileName fileBuffer contentType : String) :
    Except String String :=
  match env.blobSave fileName fileBuffer contentType with
  | Except.error e => Except.error e
  | Except.ok _ => Except.ok (publicUrl fileName)

/-- firebase.js `saveConversion`: write the record (spread with the
generated doc id and a server timestamp) and return the generated id. -/
def saveConversion (env : ConvertEnv) (userId : String)
    (data : ConversionRecord) : Except String String :=
  match env.recordSave with
  | Except.error e => Except.error e
  | Except.ok _ => Except.ok env.genId

/-- index.js `generateFileName` line 64: `type_userId_timestamp_random`. -/
def generateFileName (userId ty : String) (timestamp : Nat) (random : String) :
    String :=
  ty ++ "_" ++ userId ++ "_" ++ toString timestamp ++ "_" ++ random

/-- index.js `extractTextFromBuffer`: pdf-parse for PDFs, utf-8 decode
(identity on our byte-string model) for plain text. -/
def extractTextFromBuffer (env : ConvertEnv) (buffer mimetype : String) :
    Except String String :=
  if mimetype = "application/pdf" then env.pdfParse buffer
  else if mimetype = "text/plain" then Except.ok buffer
  else Except.error "Unsupported file type"

/-- Audio result object returned by tts.js `convertAndSaveAudio`. -/
structure AudioResult where
  success : Bool
  audioUrl : String
  fileName : String
  audioSize : Nat
deriving DecidableEq

/-- tts.js `convertAndSaveAudio`: synthesize then upload the audio
buffer as `audio/mpeg`.  The second component is an effect log: the
blob names whose upload was attempted. -/
def convertAndSaveAudio (env : ConvertEnv) (text fileName : String) :
    Except String AudioResult × List String :=
  match env.synthesize text with
  | Except.error e => (Except.error e, [])
  | Except.ok audioBuffer =>
    match uploadFile env fileName audioBuffer "audio/mpeg" with
    | Except.error e => (Except.error e, [fileName])
    | Except.ok audioUrl =>
      (Except.ok ⟨true, audioUrl, fileName, audioBuffer.length⟩, [fileName])

/-- Principal JavaScript whitespace code points recognised by
`String.prototype.trim`. -/
def jsIsWhitespace (c : Char) : Bool :=
  c = ' ' || c = '\t' || c = '\n' || c = '\r' ||
  c = '\x0b' || c = '\x0c' || c = ' ' || c = '﻿'

/-- JavaScript `String.prototype.trim`: drop leading and trailing
whitespace. -/
def jsTrim (s : String) : String :=
  String.mk (((s.toList.dropWhile jsIsWhitespace).reverse.dropWhile
    jsIsWhitespace).reverse)

/-- Outcome of one /convert request: the JSON response plus effect
logs — the record persisted by `saveConversion` (with the owning
userId), whether text extraction ran, and the blob names whose upload
was attempted. -/
structure ConvertOutcome where
  response : HttpResponse
  saved : Option (String × ConversionRecord)
  extractCalled : Bool
  blobSaves : List String
deriving DecidableEq

/-- The `res.status(500)` body of the /convert catch block. -/
def convertFailed (e : String) : HttpResponse :=
  { status := 500, error := some "Conversion failed", message := some e }

/-- index.js lines 112-155: the part of the /convert handler after the
text has been acquired — validate emptiness then length, synthesize and
store the audio, persist the record, respond. -/
def convertValidated (env : ConvertEnv) (userId textContent inputType : String)
    (originalFileName originalFileUrl : Option String)
    (extractCalled : Bool) (blobs : List String) : ConvertOutcome :=
  if jsTrim textContent = "" then
    ⟨{ status := 400, error := some "Empty text content" }, none,
      extractCalled, blobs⟩
  else if textContent.length > 5000 then
    ⟨{ status := 400,
       error := some "Text too long. Maximum 5000 characters allowed." },
      none, extractCalled, blobs⟩
  else
    match convertAndSaveAudio env textContent
        ("audio/" ++ generateFileName userId "audio" env.timestamp
          env.randAudio ++ ".mp3") with
    | (Except.error e, bs) => ⟨convertFailed e, none, extractCalled, blobs ++ bs⟩
    | (Except.ok audioResult, bs) =>
      match saveConversion env userId
          { id := "", text := textContent, inputType := inputType,
            originalFileName := originalFileName,
            originalFileUrl := originalFileUrl,
            audioUrl := audioResult.audioUrl, status := "completed",
            textLength := textContent.length } with
      | Except.error e => ⟨convertFailed e, none, extractCalled, blobs ++ bs⟩
      | Except.ok conversionId =>
        ⟨{ status := 200, success := true,
           conversionId := some conversionId,
           audioUrl := some audioResult.audioUrl,
           textLength := some textContent.length,
           inputType := some inputType,
           message := some "Text successfully converted to audio" },
          some (userId,
            { id := conversionId, text := textContent,
              inputType := inputType,
              originalFileName := originalFileName,
              originalFileUrl := originalFileUrl,
              audioUrl := audioResult.audioUrl, status := "completed",
              textLength := textContent.length }),
          extractCalled, blobs ++ bs⟩

/-- index.js lines 71-156: the /convert handler body — userId presence,
text acquisition from the uploaded file or the inline `text` field
(JS truthiness: an empty string counts as absent), then the validated
tail. -/
def convertHandler (env : ConvertEnv) (req : ConvertReq) : ConvertOutcome :=
  if req.userId = "" then
    ⟨{ status := 400, error := some "User ID is required" }, none, false, []⟩
  else
    match req.file with
    | some f =>
      match extractTextFromBuffer env f.buffer f.mimetype with
      | Except.error e => ⟨convertFailed e, none, true, []⟩
      | Except.ok textContent =>
        match uploadFile env
            ("uploads/" ++ generateFileName req.userId "original"
              env.timestamp env.randOriginal ++ "." ++
              (if f.mimetype = "application/pdf" then "pdf" else "txt"))
            f.buffer f.mimetype with
        | Except.error e =>
          ⟨convertFailed e, none, true,
            ["uploads/" ++ generateFileName req.userId "original"
              env.timestamp env.randOriginal ++ "." ++
              (if f.mimetype = "application/pdf" then "pdf" else "txt")]⟩
        | Except.ok originalFileUrl =>
          convertValidated env req.userId textContent
            (if f.mimetype = "application/pdf" then "pdf" else "txt")
            (some f.originalname) (some originalFileUrl) true
            ["uploads/" ++ generateFileName req.userId "original"
              env.timestamp env.randOriginal ++ "." ++
              (if f.mimetype = "application/pdf" then "pdf" else "txt")]
    | none =>
      match req.text with
      | some t =>
        if t = "" then
          ⟨{ status := 400, error := some "No text or file provided" },
            none, false, []⟩
        else convertValidated env req.userId t "text" none none false []
      | none =>
        ⟨{ status := 400, error := some "No text or file provided" },
          none, false, []⟩

/-- An error object reaching the Express error middleware: its message,
whether it is an `instanceof multer.MulterError`, and its `code`. -/
structure JsError where
  message : String
  isMulterError : Bool
  code : Option String
deriving DecidableEq

/-- index.js lines 282-296: the error-handling middleware.  Only a
MulterError with code LIMIT_FILE_SIZE gets a 400; every other error —
including the plain `Error` thrown by the upload fileFilter — falls
through to the generic 500. -/
def errorMiddleware (e : JsError) : HttpResponse :=
  if e.isMulterError && e.code == some "LIMIT_FILE_SIZE" then
    { status := 400, error := some "File too large. Maximum size is 10MB." }
  else
    { status := 500, error := some "Internal server error",
      message := some e.message }

/-- index.js lines 34-41: the multer fileFilter accept condition. -/
def fileFilter (mimetype : String) : Bool :=
  ["application/pdf", "text/plain"].contains mimetype

/-- index.js line 32: the 10MB multer file size limit. -/
def maxFileSize : Nat := 10 * 1024 * 1024

/-- The full /convert pipeline: the multer middleware (fileFilter and
size limit) either rejects — routing its error to the error
middleware, before the handler and hence before any extraction or
upload — or passes the request to the handler. -/
def handleConvert (env : ConvertEnv) (req : ConvertReq) : ConvertOutcome :=
  match req.file with
  | none => convertHandler env req
  | some f =>
    if fileFilter f.mimetype = false then
      ⟨errorMiddleware ⟨"Only PDF and TXT files are allowed", false, none⟩,
        none, false, []⟩
    else if f.size > maxFileSize then
      ⟨errorMiddleware ⟨"File too large", true, some "LIMIT_FILE_SIZE"⟩,
        none, false, []⟩
    else convertHandler env req

/-- JavaScript `String.prototype.split` with a one-character separator,
over the character list. -/
def splitOnChar (c : Char) : List Char → List (List Char)
  | [] => [[]]
  | x :: xs =>
    match splitOnChar c xs with
    | [] => [[x]]
    | h :: t => if x = c then [] :: h :: t else (x :: h) :: t

/-- `url.split('/')` as used in index.js lines 232 and 238. -/
def jsSplitSlash (s : String) : List String :=
  (splitOnChar '/' s.toList).map String.mk

/-- `url.split('/').pop()`: the segment after the last slash
(`split` always returns a non-empty array, so `pop` is its last
element). -/
def jsSplitPop (s : String) : String :=
  ((jsSplitSlash s).getLast?).getD ""

/-- Durable state backing one user's view of the system: the records
under `users/{userId}/conversions` (as `getConversions` returns them)
and the logical names present in the storage bucket. -/
structure SysState where
  records : List ConversionRecord
  blobs : List String
deriving DecidableEq

/-- firebase.js `deleteFile`: Cloud Storage `file.delete()` removes the
object, but rejects with a not-found error when the object is absent —
the Bool is true exactly when the deletion succeeded. -/
def deleteFile (st : SysState) (name : String) : SysState × Bool :=
  if st.blobs.contains name then
    ({ st with blobs := st.blobs.erase name }, true)
  else (st, false)

/-- firebase.js `deleteConversion` lines 54-64: `docRef.delete()` then
return the id.  A Firestore document delete resolves successfully
whether or not the document exists — the adapter performs no existence
check, so no not-found error is ever produced here. -/
def deleteConversion (st : SysState) (userId conversionId : String) :
    SysState × Except String String :=
  ({ st with records := st.records.filter (fun c => !(c.id == conversionId)) },
    Except.ok conversionId)

/-- Outcome of one DELETE /conversions/:userId/:conversionId request:
the response, whether the record delete ran, and the blob names whose
deletion was attempted. -/
structure DeleteOutcome where
  response : HttpResponse
  recordDeleteCalled : Bool
  filesAttempted : List String
deriving DecidableEq

/-- index.js lines 207-270: the delete handler — param presence check,
list-and-filter lookup (404 when absent), artifact-name reconstruction
from the stored URLs (JS truthiness on each URL), per-artifact deletion
with failures swallowed, then the authoritative record delete and the
success response. -/
def deleteHandler (st : SysState) (userId conversionId : String) :
    SysState × DeleteOutcome :=
  if userId = "" || conversionId = "" then
    (st, ⟨{ status := 400,
            error := some "User ID and Conversion ID are required" },
          false, []⟩)
  else
    match st.records.find? (fun c => c.id == conversionId) with
    | none =>
      (st, ⟨{ status := 404, error := some "Conversion not found" },
            false, []⟩)
    | some conversion =>
      let filesToDelete :=
        (match conversion.originalFileUrl with
         | some url =>
           if url ≠ "" then ["uploads/" ++ jsSplitPop url] else []
         | none => []) ++
        (if conversion.audioUrl ≠ "" then
          ["audio/" ++ jsSplitPop conversion.audioUrl] else [])
      let st1 := filesToDelete.foldl (fun s n => (deleteFile s n).1) st
      let st2 := (deleteConversion st1 userId conversionId).1
      (st2,
        ⟨{ status := 200, success := true,
           message := some "Conversion and associated files deleted successfully",
           deletedConversionId := some conversionId },
          true, filesToDelete⟩)

/-- Identifiers declared in the module scope of index.js (requires and
top-level consts) together with every identifier declared in any scope
enclosing the /convert handler's finally block (handler parameters,
the try block's consts, the catch and inner-catch bindings).  The
finally guard at line 166 reads `tempFilePath`, which appears nowhere
here. -/
def convertHandlerScopeIdentifiers : List String :=
  ["express", "multer", "cors", "fs", "path", "pdf",
   "saveConversion", "getConversions", "deleteConversion", "uploadFile",
   "deleteFile", "convertAndSaveAudio", "app", "PORT", "upload",
   "extractTextFromBuffer", "generateFileName",
   "req", "res", "userId", "textContent", "inputType",
   "originalFileName", "originalFileUrl", "buffer", "storageFileName",
   "audioFileName", "audioResult", "conversionData", "conversionId",
   "error", "cleanupError"]

/-- What evaluating the finally block of the /convert handler does:
either the guard resolves and (when truthy) the cleanup body runs, or
the identifier is unbound and the evaluation throws a ReferenceError. -/
inductive FinallyBehavior
  | bodyRan
  | guardFalse
  | referenceError
deriving DecidableEq

/-- index.js lines 164-173: evaluate `if (tempFilePath) { ... }` under
JavaScript scoping — resolving an identifier declared in no enclosing
scope throws a ReferenceError before any truthiness test; were the
identifier bound, the body would run exactly when its value is truthy
(the parameter). -/
def finallyCleanup (boundValueTruthy : Bool) : FinallyBehavior :=
  if convertHandlerScopeIdentifiers.contains "tempFilePath" then
    (if boundValueTruthy then FinallyBehavior.bodyRan
     else FinallyBehavior.guardFalse)
  else FinallyBehavior.referenceError

-- Helper lemmas about the split used by the deletion workflow.

lemma splitOnChar_ne_nil (c : Char) (s : List Char) : splitOnChar c s ≠ [] := by
  induction s with
  | nil => simp [splitOnChar]
  | cons x xs ih =>
    cases hr : splitOnChar c xs with
    | nil => exact absurd hr ih
    | cons hd tl =>
      simp only [splitOnChar, hr]
      split <;> simp

lemma splitOnChar_cons_eq (c x : Char) (xs hd : List Char)
    (tl : List (List Char)) (h : splitOnChar c xs = hd :: tl) :
    splitOnChar c (x :: xs) =
      if x = c then [] :: hd :: tl else (x :: hd) :: tl := by
  unfold splitOnChar
  rw [h]

lemma splitOnChar_length (c : Char) (s : List Char) :
    (splitOnChar c s).length = s.count c + 1 := by
  induction s with
  | nil => simp [splitOnChar]
  | cons x xs ih =>
    cases hr : splitOnChar c xs with
    | nil => exact absurd hr (splitOnChar_ne_nil c xs)
    | cons hd tl =>
      rw [hr] at ih
      simp only [List.length_cons] at ih
      rw [splitOnChar_cons_eq c x xs hd tl hr]
      by_cases hx : x = c
      · have hbeq : (x == c) = true := by simp [hx]
        simp only [if_pos hx, List.length_cons, List.count_cons, hbeq,
          if_true]
        omega
      · have hbeq : (x == c) = false := by simp [hx]
        simp only [if_neg hx, List.length_cons, List.count_cons, hbeq,
          Bool.false_eq_true, if_false]
        omega

lemma splitOnChar_of_not_mem (c : Char) (ys : List Char) (h : c ∉ ys) :
    splitOnChar c ys = [ys] := by
  induction ys with
  | nil => rfl
  | cons y ys ih =>
    have hy : ¬ y = c := fun e => h (List.mem_cons.mpr (Or.inl e.symm))
    have hys : c ∉ ys := fun m => h (List.mem_cons.mpr (Or.inr m))
    simp [splitOnChar, ih hys, hy]

lemma splitOnChar_getLast_append (c : Char) (xs ys : List Char) (h : c ∉ ys) :
    (splitOnChar c (xs ++ c :: ys)).getLast? = some ys := by
  induction xs with
  | nil =>
    simp [splitOnChar, splitOnChar_of_not_mem c ys h]
  | cons x xs ih =>
    have hcount : 1 ≤ (xs ++ c :: ys).count c := by
      rw [List.count_append, List.count_cons]
      have hbeq : (c == c) = true := by simp
      simp only [hbeq, if_true]
      omega
    have hlen : 2 ≤ (splitOnChar c (xs ++ c :: ys)).length := by
      rw [splitOnChar_length]; omega
    cases hr : splitOnChar c (xs ++ c :: ys) with
    | nil => exact absurd hr (splitOnChar_ne_nil _ _)
    | cons hd tl =>
      cases tl with
      | nil => rw [hr] at hlen; simp at hlen
      | cons t1 t2 =>
        rw [hr] at ih
        rw [List.getLast?_cons_cons] at ih
        rw [List.cons_append, splitOnChar_cons_eq c x _ hd (t1 :: t2) hr]
        by_cases hx : x = c
        · simp only [if_pos hx, List.getLast?_cons_cons]
          exact ih
        · simp only [if_neg hx, List.getLast?_cons_cons]
          exact ih

-- Helper lemmas about jsTrim and publicUrl.

lemma all_takeWhile_self (p : Char → Bool) (l : List Char) :
    (l.takeWhile p).all p = true := by
  rw [List.all_eq_true]
  intro x hx
  exact List.mem_takeWhile_imp hx

lemma jsTrim_eq_empty_iff (s : String) :
    jsTrim s = "" ↔ s.data.all jsIsWhitespace = true := by
  unfold jsTrim
  constructor
  · intro h
    have hdata := String.ext_iff.mp h
    simp only [String.toList] at hdata
    rw [List.reverse_eq_nil_iff, List.dropWhile_eq_nil_iff] at hdata
    have hdrop : (s.data.dropWhile jsIsWhitespace).all jsIsWhitespace = true := by
      rw [← List.all_reverse, List.all_eq_true]
      exact hdata
    conv_lhs => rw [← List.takeWhile_append_dropWhile jsIsWhitespace s.data]
    rw [List.all_append, all_takeWhile_self, hdrop]
    rfl
  · intro h
    have hdrop : s.data.dropWhile jsIsWhitespace = [] := by
      rw [List.dropWhile_eq_nil_iff]
      intro x hx
      exact (List.all_eq_true.mp h) x hx
    apply String.ext
    simp [String.toList, hdrop]

lemma jsTrim_of_all_not_ws (l : List Char)
    (h : l.all (fun c => !jsIsWhitespace c) = true) :
    jsTrim (String.mk l) = String.mk l := by
  have hdrop : ∀ m : List Char, m.all (fun c => !jsIsWhitespace c) = true →
      m.dropWhile jsIsWhitespace = m := by
    intro m hm
    cases m with
    | nil => rfl
    | cons a t =>
      have ha : jsIsWhitespace a = false := by
        have := (List.all_eq_true.mp hm) a (List.mem_cons.mpr (Or.inl rfl))
        simpa using this
      rw [List.dropWhile_cons, ha]
      simp
  unfold jsTrim
  simp only [String.toList]
  rw [hdrop _ h, hdrop _ (by rw [List.all_reverse]; exact h),
    List.reverse_reverse]

lemma publicUrl_ne_empty (n : String) : publicUrl n ≠ "" := by
  intro h
  have h2 := congrArg String.length h
  unfold publicUrl at h2
  rw [String.length_append, String.length_append, String.length_append] at h2
  have hx : ("https://storage.googleapis.com/" : String).length = 31 := rfl
  have he : ("" : String).length = 0 := rfl
  omega

-- Helper lemmas about the delete workflow state.

lemma deleteFile_records (st : SysState) (n : String) :
    ((deleteFile st n).1).records = st.records := by
  unfold deleteFile
  split <;> rfl

lemma foldl_deleteFile_records (ns : List String) (st : SysState) :
    (ns.foldl (fun s n => (deleteFile s n).1) st).records = st.records := by
  induction ns generalizing st with
  | nil => rfl
  | cons n ns ih =>
    rw [List.foldl_cons, ih, deleteFile_records]

lemma find?_filter_out (l : List ConversionRecord) (cid : String) :
    (l.filter (fun c => !(c.id == cid))).find? (fun c => c.id == cid) = none := by
  rw [List.find?_eq_none]
  intro x hx
  have hmem := (List.mem_filter.mp hx).2
  simp only [Bool.not_eq_true'] at hmem
  simp [hmem]

-- The successful tail of the conversion workflow, shared by the
-- claims about well-formed inline requests.

lemma convertValidated_ok (env : ConvertEnv) (userId textContent inputType : String)
    (originalFileName originalFileUrl : Option String)
    (extractCalled : Bool) (blobs : List String)
    (hws : ¬ jsTrim textContent = "") (hlen : ¬ textContent.length > 5000)
    (henv : EnvOk env) :
    convertValidated env userId textContent inputType originalFileName
      originalFileUrl extractCalled blobs =
      ⟨{ status := 200, success := true,
         conversionId := some env.genId,
         audioUrl := some (publicUrl ("audio/" ++ generateFileName userId
           "audio" env.timestamp env.randAudio ++ ".mp3")),
         textLength := some textContent.length,
         inputType := some inputType,
         message := some "Text successfully converted to audio" },
        some (userId,
          { id := env.genId, text := textContent, inputType := inputType,
            originalFileName := originalFileName,
            originalFileUrl := originalFileUrl,
            audioUrl := publicUrl ("audio/" ++ generateFileName userId
              "audio" env.timestamp env.randAudio ++ ".mp3"),
            status := "completed", textLength := textContent.length }),
        extractCalled,
        blobs ++ ["audio/" ++ generateFileName userId "audio" env.timestamp
          env.randAudio ++ ".mp3"]⟩ := by
  obtain ⟨hsyn, hblob, hrec⟩ := henv
  obtain ⟨b, hb⟩ := hsyn textContent
  simp only [convertValidated, if_neg hws, if_neg hlen, convertAndSaveAudio,
    hb, uploadFile, hblob, saveConversion, hrec]

/-- A concrete environment in which every collaborator call succeeds,
used to instantiate the theorems below at concrete inputs. -/
def sampleEnv : ConvertEnv :=
  { pdfParse := fun b => Except.ok b,
    synthesize := fun _ => Except.ok "AUDIOBYTES",
    blobSave := fun _ _ _ => Except.ok (),
    recordSave := Except.ok (),
    genId := "rec1",
    timestamp := 1700000000000,
    randOriginal := "abc123",
    randAudio := "def456" }

lemma sampleEnv_ok : EnvOk sampleEnv :=
  ⟨fun _ => ⟨"AUDIOBYTES", rfl⟩, fun _ _ _ => rfl, rfl⟩

lemma length_mk_replicate (c : Char) (n : Nat) :
    (String.mk (List.replicate n c)).length = n := by
  simp [String.length]

lemma mk_replicate_ne_empty (c : Char) (n : Nat) (hn : 1 ≤ n) :
    String.mk (List.replicate n c) ≠ "" := by
  intro h
  have h2 := congrArg String.length h
  rw [length_mk_replicate] at h2
  have he : ("" : String).length = 0 := rfl
  omega

lemma jsTrim_replicate_a (n : Nat) :
    jsTrim (String.mk (List.replicate n 'a')) =
      String.mk (List.replicate n 'a') :=
  jsTrim_of_all_not_ws _ (by
    rw [List.all_eq_true]
    intro x hx
    rw [List.eq_of_mem_replicate hx]
    decide)

lemma jsTrim_replicate_space (n : Nat) :
    jsTrim (String.mk (List.replicate n ' ')) = "" := by
  rw [jsTrim_eq_empty_iff]
  rw [List.all_eq_true]
  intro x hx
  have hx' : x ∈ List.replicate n ' ' := hx
  rw [List.eq_of_mem_replicate hx']
  decide

-- Reduction of the full pipeline on an inline-text request.

lemma handleConvert_inline (env : ConvertEnv) (u t : String)
    (hu : ¬ u = "") (ht : ¬ t = "") :
    handleConvert env ⟨u, some t, none⟩ =
      convertValidated env u t "text" none none false [] := by
  simp only [handleConvert, convertHandler, if_neg hu, if_neg ht]

/-- C1: for every POST /convert request with a valid userId and inline
text of 1 to 5000 characters that is not all whitespace, assuming the
synthesis, blob-store and record-store calls all succeed, the response
has success true, a non-empty audioUrl and textLength equal to the
exact character count of the input text, and the persisted conversion
record's textLength field equals the character length of its text
field. -/
theorem convert_inline_success (env : ConvertEnv) (u t : String)
    (hu : u ≠ "") (hws : jsTrim t ≠ "")
    (hpos : 1 ≤ t.length) (hlen : t.length ≤ 5000) (henv : EnvOk env) :
    (handleConvert env ⟨u, some t, none⟩).response.success = true ∧
    (∃ url, (handleConvert env ⟨u, some t, none⟩).response.audioUrl =
      some url ∧ url ≠ "") ∧
    (handleConvert env ⟨u, some t, none⟩).response.textLength =
      some t.length ∧
    (∃ rec, (handleConvert env ⟨u, some t, none⟩).saved = some (u, rec) ∧
      rec.text = t ∧ rec.textLength = rec.text.length) := by
  have htne : ¬ t = "" := by
    intro e
    exact hws (by rw [e]; rfl)
  rw [handleConvert_inline env u t hu htne,
    convertValidated_ok env u t "text" none none false [] hws
      (by omega) henv]
  exact ⟨rfl, ⟨_, rfl, publicUrl_ne_empty _⟩, rfl, ⟨_, rfl, rfl, rfl⟩⟩

/-- Witness: convert_inline_success at a concrete request. -/
theorem convert_inline_success_witness :
    (("u1" : String) ≠ "" ∧ jsTrim "hello" ≠ "" ∧
      1 ≤ ("hello" : String).length ∧ ("hello" : String).length ≤ 5000 ∧
      EnvOk sampleEnv) ∧
    ((handleConvert sampleEnv ⟨"u1", some "hello", none⟩).response.success =
      true ∧
     (∃ url, (handleConvert sampleEnv
        ⟨"u1", some "hello", none⟩).response.audioUrl = some url ∧
        url ≠ "") ∧
     (handleConvert sampleEnv ⟨"u1", some "hello", none⟩).response.textLength =
        some ("hello" : String).length ∧
     (∃ rec, (handleConvert sampleEnv ⟨"u1", some "hello", none⟩).saved =
        some ("u1", rec) ∧ rec.text = "hello" ∧
        rec.textLength = rec.text.length)) :=
  ⟨⟨by decide, by decide, by decide, by decide, sampleEnv_ok⟩,
    convert_inline_success sampleEnv "u1" "hello" (by decide) (by decide)
      (by decide) (by decide) sampleEnv_ok⟩

/-- C2: with a valid userId, non-whitespace inline text of exactly 5000
characters passes the length validation (with successful collaborators
the request succeeds, status 200), while text of exactly 5001
characters is rejected with HTTP 400 and the content-too-large error:
the boundary of the length check is strictly greater than 5000. -/
theorem convert_length_boundary (env : ConvertEnv) (u t5000 t5001 : String)
    (hu : u ≠ "")
    (h50 : t5000.length = 5000) (hws50 : jsTrim t5000 ≠ "")
    (h51 : t5001.length = 5001) (hws51 : jsTrim t5001 ≠ "")
    (henv : EnvOk env) :
    (handleConvert env ⟨u, some t5000, none⟩).response.status = 200 ∧
    (handleConvert env ⟨u, some t5001, none⟩).response.status = 400 ∧
    (handleConvert env ⟨u, some t5001, none⟩).response.error =
      some "Text too long. Maximum 5000 characters allowed." := by
  have htne50 : ¬ t5000 = "" := fun e => hws50 (by rw [e]; rfl)
  have htne51 : ¬ t5001 = "" := fun e => hws51 (by rw [e]; rfl)
  have h51big : t5001.length > 5000 := by omega
  refine ⟨?_, ?_, ?_⟩
  · rw [handleConvert_inline env u t5000 hu htne50,
      convertValidated_ok env u t5000 "text" none none false [] hws50
        (by omega) henv]
  · rw [handleConvert_inline env u t5001 hu htne51]
    unfold convertValidated
    rw [if_neg hws51, if_pos h51big]
  · rw [handleConvert_inline env u t5001 hu htne51]
    unfold convertValidated
    rw [if_neg hws51, if_pos h51big]

/-- Witness: convert_length_boundary at 5000 and 5001 copies of 'a'. -/
theorem convert_length_boundary_witness :
    ((String.mk (List.replicate 5000 'a')).length = 5000 ∧
     (String.mk (List.replicate 5001 'a')).length = 5001) ∧
    ((handleConvert sampleEnv
        ⟨"u1", some (String.mk (List.replicate 5000 'a')), none⟩).response.status
        = 200 ∧
     (handleConvert sampleEnv
        ⟨"u1", some (String.mk (List.replicate 5001 'a')), none⟩).response.status
        = 400 ∧
     (handleConvert sampleEnv
        ⟨"u1", some (String.mk (List.replicate 5001 'a')), none⟩).response.error
        = some "Text too long. Maximum 5000 characters allowed.") :=
  ⟨⟨length_mk_replicate 'a' 5000, length_mk_replicate 'a' 5001⟩,
    convert_length_boundary sampleEnv "u1"
      (String.mk (List.replicate 5000 'a'))
      (String.mk (List.replicate 5001 'a')) (by decide)
      (length_mk_replicate 'a' 5000)
      (by rw [jsTrim_replicate_a]
          exact mk_replicate_ne_empty 'a' 5000 (by omega))
      (length_mk_replicate 'a' 5001)
      (by rw [jsTrim_replicate_a]
          exact mk_replicate_ne_empty 'a' 5001 (by omega))
      sampleEnv_ok⟩

/-- C3: a request whose acquired text is entirely whitespace — whether
the non-empty inline `text` field or the text extracted from an
accepted upload whose original-file store succeeded — is rejected with
HTTP 400 and the empty-content error, for every environment and every
length (the emptiness check runs before the length check, so even
all-whitespace text beyond 5000 characters reports empty content). -/
theorem convert_all_whitespace_rejected (env : ConvertEnv) (u t : String)
    (f : FileUpload)
    (hu : u ≠ "") (htne : t ≠ "") (hws : jsTrim t = "")
    (hmt : fileFilter f.mimetype = true) (hsz : ¬ f.size > maxFileSize)
    (hex : extractTextFromBuffer env f.buffer f.mimetype = Except.ok t)
    (hblob : ∀ n b c, env.blobSave n b c = Except.ok ()) :
    ((handleConvert env ⟨u, some t, none⟩).response.status = 400 ∧
     (handleConvert env ⟨u, some t, none⟩).response.error =
       some "Empty text content") ∧
    ((handleConvert env ⟨u, none, some f⟩).response.status = 400 ∧
     (handleConvert env ⟨u, none, some f⟩).response.error =
       some "Empty text content") := by
  constructor
  · rw [handleConvert_inline env u t hu htne]
    unfold convertValidated
    rw [if_pos hws]
    exact ⟨rfl, rfl⟩
  · have hmt' : ¬ (fileFilter f.mimetype = false) := by
      rw [hmt]
      intro h
      cases h
    have hred : handleConvert env ⟨u, none, some f⟩ =
        convertValidated env u t
          (if f.mimetype = "application/pdf" then "pdf" else "txt")
          (some f.originalname)
          (some (publicUrl ("uploads/" ++ generateFileName u "original"
            env.timestamp env.randOriginal ++ "." ++
            (if f.mimetype = "application/pdf" then "pdf" else "txt"))))
          true
          ["uploads/" ++ generateFileName u "original" env.timestamp
            env.randOriginal ++ "." ++
            (if f.mimetype = "application/pdf" then "pdf" else "txt")] := by
      simp only [handleConvert, convertHandler, if_neg hmt', if_neg hsz,
        if_neg hu, hex, uploadFile, hblob]
    rw [hred]
    unfold convertValidated
    rw [if_pos hws]
    exact ⟨rfl, rfl⟩

/-- Witness: convert_all_whitespace_rejected on 5001 spaces, both as
inline text and as a plain-text upload. -/
theorem convert_all_whitespace_rejected_witness :
    ((String.mk (List.replicate 5001 ' ')).length > 5000 ∧
     jsTrim (String.mk (List.replicate 5001 ' ')) = "") ∧
    (((handleConvert sampleEnv
        ⟨"u1", some (String.mk (List.replicate 5001 ' ')), none⟩).response.status
        = 400 ∧
      (handleConvert sampleEnv
        ⟨"u1", some (String.mk (List.replicate 5001 ' ')), none⟩).response.error
        = some "Empty text content") ∧
     ((handleConvert sampleEnv
        ⟨"u1", none, some ⟨"notes.txt", "text/plain",
          String.mk (List.replicate 5001 ' '), 5001⟩⟩).response.status = 400 ∧
      (handleConvert sampleEnv
        ⟨"u1", none, some ⟨"notes.txt", "text/plain",
          String.mk (List.replicate 5001 ' '), 5001⟩⟩).response.error =
        some "Empty text content")) :=
  ⟨⟨by rw [length_mk_replicate]; omega, jsTrim_replicate_space 5001⟩,
    convert_all_whitespace_rejected sampleEnv "u1"
      (String.mk (List.replicate 5001 ' '))
      ⟨"notes.txt", "text/plain", String.mk (List.replicate 5001 ' '), 5001⟩
      (by decide)
      (mk_replicate_ne_empty ' ' 5001 (by omega))
      (jsTrim_replicate_space 5001)
      (by decide) (by decide) rfl (fun _ _ _ => rfl)⟩

/-- C9: with a valid userId, no uploaded file and an inline text field
equal to the empty string, the request is rejected with the no-content
error (not the empty-content one): at the public interface the empty
string is indistinguishable from an absent text field. -/
theorem convert_empty_text_field (env : ConvertEnv) (u : String)
    (hu : u ≠ "") :
    (handleConvert env ⟨u, some "", none⟩).response.status = 400 ∧
    (handleConvert env ⟨u, some "", none⟩).response.error =
      some "No text or file provided" ∧
    handleConvert env ⟨u, some "", none⟩ = handleConvert env ⟨u, none, none⟩ := by
  have h1 : handleConvert env ⟨u, some "", none⟩ =
      ⟨{ status := 400, error := some "No text or file provided" },
        none, false, []⟩ := by
    simp only [handleConvert, convertHandler, if_neg hu, if_pos rfl]
    rfl
  have h2 : handleConvert env ⟨u, none, none⟩ =
      ⟨{ status := 400, error := some "No text or file provided" },
        none, false, []⟩ := by
    simp only [handleConvert, convertHandler, if_neg hu]
  rw [h1, h2]
  exact ⟨rfl, rfl, rfl⟩

/-- Witness: convert_empty_text_field at a concrete userId. -/
theorem convert_empty_text_field_witness :
    (("u1" : String) ≠ "") ∧
    ((handleConvert sampleEnv ⟨"u1", some "", none⟩).response.status = 400 ∧
     (handleConvert sampleEnv ⟨"u1", some "", none⟩).response.error =
       some "No text or file provided" ∧
     handleConvert sampleEnv ⟨"u1", some "", none⟩ =
       handleConvert sampleEnv ⟨"u1", none, none⟩) :=
  ⟨by decide, convert_empty_text_field sampleEnv "u1" (by decide)⟩

/-- A concrete upload whose declared media type is neither
application/pdf nor text/plain. -/
def pngUpload : FileUpload := ⟨"img.png", "image/png", "PNGBYTES", 100⟩

/-- C4 counterexample: the claim says a non-PDF, non-plain-text upload
is rejected with HTTP 400; on the code the fileFilter's plain `Error`
is not a MulterError, so the error middleware answers 500 — at this
concrete request the status is not 400. -/
theorem convert_wrong_filetype_counterexample :
    ¬ ((handleConvert sampleEnv ⟨"u1", none, some pngUpload⟩).response.status
        = 400) := by
  decide

/-- C4 amended: a request uploading a file whose declared media type is
neither application/pdf nor text/plain is rejected before any text
extraction or artifact upload occurs, but with HTTP 500 and the generic
internal-server-error body (the fileFilter's plain Error is not a
MulterError, so the error middleware's LIMIT_FILE_SIZE branch does not
apply). -/
theorem convert_wrong_filetype_500 (env : ConvertEnv) (req : ConvertReq)
    (f : FileUpload) (hf : req.file = some f)
    (hmt : fileFilter f.mimetype = false) :
    (handleConvert env req).response.status = 500 ∧
    (handleConvert env req).response.error = some "Internal server error" ∧
    (handleConvert env req).response.message =
      some "Only PDF and TXT files are allowed" ∧
    (handleConvert env req).extractCalled = false ∧
    (handleConvert env req).blobSaves = [] := by
  have hred : handleConvert env req =
      ⟨errorMiddleware ⟨"Only PDF and TXT files are allowed", false, none⟩,
        none, false, []⟩ := by
    simp only [handleConvert, hf, if_pos hmt]
  rw [hred]
  exact ⟨rfl, rfl, rfl, rfl, rfl⟩

/-- Witness: convert_wrong_filetype_500 at the concrete png request. -/
theorem convert_wrong_filetype_500_witness :
    (fileFilter pngUpload.mimetype = false) ∧
    ((handleConvert sampleEnv ⟨"u1", none, some pngUpload⟩).response.status
        = 500 ∧
     (handleConvert sampleEnv ⟨"u1", none, some pngUpload⟩).response.error =
        some "Internal server error" ∧
     (handleConvert sampleEnv ⟨"u1", none, some pngUpload⟩).response.message =
        some "Only PDF and TXT files are allowed" ∧
     (handleConvert sampleEnv ⟨"u1", none, some pngUpload⟩).extractCalled
        = false ∧
     (handleConvert sampleEnv ⟨"u1", none, some pngUpload⟩).blobSaves = []) :=
  ⟨by decide,
    convert_wrong_filetype_500 sampleEnv ⟨"u1", none, some pngUpload⟩
      pngUpload rfl (by decide)⟩

/-- C5: deleting a conversion id absent from the user's namespace
answers HTTP 404 with the not-found error and deletes nothing (the
state is unchanged and no artifact or record delete runs);
consequently, after a successful delete of an existing id the same
delete repeated answers 404. -/
theorem delete_missing_404 (st : SysState) (u cid : String)
    (c : ConversionRecord) (hu : u ≠ "") (hc : cid ≠ "") :
    (st.records.find? (fun r => r.id == cid) = none →
      (deleteHandler st u cid).2.response.status = 404 ∧
      (deleteHandler st u cid).2.response.error =
        some "Conversion not found" ∧
      (deleteHandler st u cid).1 = st ∧
      (deleteHandler st u cid).2.recordDeleteCalled = false ∧
      (deleteHandler st u cid).2.filesAttempted = []) ∧
    (st.records.find? (fun r => r.id == cid) = some c →
      (deleteHandler (deleteHandler st u cid).1 u cid).2.response.status
        = 404 ∧
      (deleteHandler (deleteHandler st u cid).1 u cid).2.response.error =
        some "Conversion not found") := by
  have hg : ¬ ((decide (u = "") || decide (cid = "")) = true) := by
    simp [hu, hc]
  constructor
  · intro habs
    have hred : deleteHandler st u cid =
        (st, ⟨{ status := 404, error := some "Conversion not found" },
          false, []⟩) := by
      simp only [deleteHandler, if_neg hg, habs]
    rw [hred]
    exact ⟨rfl, rfl, rfl, rfl, rfl⟩
  · intro hfound
    have hrecords : (deleteHandler st u cid).1.records =
        st.records.filter (fun r => !(r.id == cid)) := by
      simp only [deleteHandler, if_neg hg, hfound, deleteConversion]
      rw [foldl_deleteFile_records]
    have hnone : (deleteHandler st u cid).1.records.find?
        (fun r => r.id == cid) = none := by
      rw [hrecords]
      exact find?_filter_out _ _
    generalize hgen : (deleteHandler st u cid).1 = st1 at hnone ⊢
    have hred : deleteHandler st1 u cid =
        (st1, ⟨{ status := 404, error := some "Conversion not found" },
          false, []⟩) := by
      simp only [deleteHandler, if_neg hg, hnone]
    rw [hred]
    exact ⟨rfl, rfl⟩

/-- C6: when the record exists, the delete workflow reports success
with the deleted conversion id and deletes the record, whatever the
blob store holds — per-artifact deletion failures (such as an original
upload already missing) are swallowed and do not abort the record
delete. -/
theorem delete_artifact_failure_tolerated (st : SysState) (u cid : String)
    (c : ConversionRecord) (hu : u ≠ "") (hc : cid ≠ "")
    (hfound : st.records.find? (fun r => r.id == cid) = some c) :
    (deleteHandler st u cid).2.response.status = 200 ∧
    (deleteHandler st u cid).2.response.success = true ∧
    (deleteHandler st u cid).2.response.deletedConversionId = some cid ∧
    (deleteHandler st u cid).2.recordDeleteCalled = true ∧
    (deleteHandler st u cid).1.records.find? (fun r => r.id == cid)
      = none := by
  have hg : ¬ ((decide (u = "") || decide (cid = "")) = true) := by
    simp [hu, hc]
  have hrecords : (deleteHandler st u cid).1.records =
      st.records.filter (fun r => !(r.id == cid)) := by
    simp only [deleteHandler, if_neg hg, hfound, deleteConversion]
    rw [foldl_deleteFile_records]
  refine ⟨?_, ?_, ?_, ?_, ?_⟩
  · simp only [deleteHandler, if_neg hg, hfound]
  · simp only [deleteHandler, if_neg hg, hfound]
  · simp only [deleteHandler, if_neg hg, hfound]
  · simp only [deleteHandler, if_neg hg, hfound]
  · rw [hrecords]
    exact find?_filter_out _ _

/-- A concrete persisted conversion used to instantiate the delete
workflow: its original-upload artifact is absent from the blob store. -/
def sampleRecord : ConversionRecord :=
  { id := "c1", text := "hello", inputType := "txt",
    originalFileName := some "notes.txt",
    originalFileUrl := some (publicUrl "uploads/original_u1_7_ab12cd.txt"),
    audioUrl := publicUrl "audio/audio_u1_7_ef34gh.mp3",
    status := "completed", textLength := 5 }

/-- A concrete state holding sampleRecord whose audio artifact exists
but whose original upload is missing from the blob store. -/
def sampleState : SysState :=
  { records := [sampleRecord], blobs := ["audio/audio_u1_7_ef34gh.mp3"] }

/-- Witness: delete_missing_404 at the concrete state — the second
conjunct shows the repeated delete of the just-deleted id answering
404. -/
theorem delete_missing_404_witness :
    (sampleState.records.find? (fun r => r.id == "c1") = some sampleRecord) ∧
    ((sampleState.records.find? (fun r => r.id == "c1") = none →
      (deleteHandler sampleState "u1" "c1").2.response.status = 404 ∧
      (deleteHandler sampleState "u1" "c1").2.response.error =
        some "Conversion not found" ∧
      (deleteHandler sampleState "u1" "c1").1 = sampleState ∧
      (deleteHandler sampleState "u1" "c1").2.recordDeleteCalled = false ∧
      (deleteHandler sampleState "u1" "c1").2.filesAttempted = []) ∧
     (sampleState.records.find? (fun r => r.id == "c1") = some sampleRecord →
      (deleteHandler (deleteHandler sampleState "u1" "c1").1 "u1"
        "c1").2.response.status = 404 ∧
      (deleteHandler (deleteHandler sampleState "u1" "c1").1 "u1"
        "c1").2.response.error = some "Conversion not found")) :=
  ⟨by decide,
    delete_missing_404 sampleState "u1" "c1" sampleRecord (by decide)
      (by decide)⟩

/-- Witness: delete_artifact_failure_tolerated at the concrete state
whose original-upload artifact is missing from the blob store (shown by
the first conjunct), so that artifact's deletion fails and is
swallowed. -/
theorem delete_artifact_failure_tolerated_witness :
    (sampleState.blobs.contains "uploads/original_u1_7_ab12cd.txt" = false ∧
     sampleState.records.find? (fun r => r.id == "c1") = some sampleRecord) ∧
    ((deleteHandler sampleState "u1" "c1").2.response.status = 200 ∧
     (deleteHandler sampleState "u1" "c1").2.response.success = true ∧
     (deleteHandler sampleState "u1" "c1").2.response.deletedConversionId =
       some "c1" ∧
     (deleteHandler sampleState "u1" "c1").2.recordDeleteCalled = true ∧
     (deleteHandler sampleState "u1" "c1").1.records.find?
       (fun r => r.id == "c1") = none) :=
  ⟨⟨by decide, by decide⟩,
    delete_artifact_failure_tolerated sampleState "u1" "c1" sampleRecord
      (by decide) (by decide) (by decide)⟩

/-- C7 counterexample: the record-store delete called with an id absent
from an empty namespace resolves successfully with the id — it does not
fail with a not-found error as the claim states. -/
theorem deleteConversion_absent_succeeds :
    ((⟨[], []⟩ : SysState).records.find? (fun r => r.id == "c1") = none) ∧
    (deleteConversion ⟨[], []⟩ "u1" "c1").2 = Except.ok "c1" := by
  exact ⟨rfl, rfl⟩

/-- C7 amended: the record-store delete operation always succeeds
silently, returning the id, whether or not a record with that id exists
(a Firestore document delete is idempotent and the adapter performs no
existence check); it removes exactly the records with that id, and
absence is surfaced only by the orchestrator's list-and-filter lookup
before this call. -/
theorem deleteConversion_always_ok (st : SysState) (u cid : String) :
    (deleteConversion st u cid).2 = Except.ok cid ∧
    (deleteConversion st u cid).1.records =
      st.records.filter (fun r => !(r.id == cid)) ∧
    (deleteConversion st u cid).1.blobs = st.blobs :=
  ⟨rfl, rfl, rfl⟩

-- The last URL segment of a name stored under a folder.

lemma jsSplitPop_append_slash (p base : String) (hb : '/' ∉ base.data) :
    jsSplitPop (p ++ "/" ++ base) = base := by
  unfold jsSplitPop jsSplitSlash
  rw [List.getLast?_map]
  have hdata : (p ++ "/" ++ base).toList = p.data ++ '/' :: base.data := by
    simp only [String.toList, String.data_append]
    rw [List.append_assoc, List.singleton_append]
  rw [hdata, splitOnChar_getLast_append '/' p.data base.data hb]
  rfl

lemma publicUrl_folder (folder base : String) :
    publicUrl (folder ++ "/" ++ base) =
      (("https://storage.googleapis.com/" ++ bucketName ++ "/") ++ folder) ++
        "/" ++ base := by
  unfold publicUrl
  apply String.ext
  simp [String.data_append, List.append_assoc]

/-- C8: for every logical name audio/{base} or uploads/{base} whose
base contains no slash, the last slash-separated segment of the public
URL returned by the artifact store is base, so re-prefixing it with the
conventional folder — exactly what the deletion workflow does — yields
the logical name the artifact was stored under. -/
theorem artifact_name_roundtrip (base : String) (hb : '/' ∉ base.data) :
    "audio/" ++ jsSplitPop (publicUrl ("audio/" ++ base)) =
      "audio/" ++ base ∧
    "uploads/" ++ jsSplitPop (publicUrl ("uploads/" ++ base)) =
      "uploads/" ++ base := by
  have ha : ("audio/" : String) = "audio" ++ "/" := by decide
  have hu : ("uploads/" : String) = "uploads" ++ "/" := by decide
  constructor
  · rw [ha, publicUrl_folder "audio" base, jsSplitPop_append_slash _ base hb]
  · rw [hu, publicUrl_folder "uploads" base, jsSplitPop_append_slash _ base hb]

/-- Witness: artifact_name_roundtrip at a concrete generated base
name. -/
theorem artifact_name_roundtrip_witness :
    ('/' ∉ ("audio_u1_7_ef34gh.mp3" : String).data) ∧
    ("audio/" ++ jsSplitPop (publicUrl ("audio/" ++ "audio_u1_7_ef34gh.mp3")) =
      "audio/" ++ "audio_u1_7_ef34gh.mp3" ∧
     "uploads/" ++ jsSplitPop (publicUrl ("uploads/" ++ "audio_u1_7_ef34gh.mp3")) =
      "uploads/" ++ "audio_u1_7_ef34gh.mp3") :=
  ⟨by decide, artifact_name_roundtrip "audio_u1_7_ef34gh.mp3" (by decide)⟩

/-- C10: the finally-block guard of the /convert handler reads the
identifier tempFilePath, which is declared in no enclosing scope, so on
every request the guard's evaluation throws a ReferenceError and the
cleanup body never runs — the guard is not a benign always-false
check. -/
theorem finally_guard_reference_error :
    convertHandlerScopeIdentifiers.contains "tempFilePath" = false ∧
    (∀ b, finallyCleanup b = FinallyBehavior.referenceError) ∧
    (∀ b, finallyCleanup b ≠ FinallyBehavior.bodyRan) := by
  refine ⟨by decide, ?_, ?_⟩
  · intro b
    cases b <;> decide
  · intro b
    cases b <;> decide
